import Mathlib

/-!
Verification of the weather-alert-system repository core logic.

Shallow embedding of:
- `backend/app/services/risk_calculator.py` (`RiskCalculator`)
- `backend/app/services/alert_engine.py` (`AlertEngine`)
- `backend/app/services/earthquake_monitor.py` (`EarthquakeMonitor`)
- `backend/app/services/tsunami_monitor.py` (`TsunamiMonitor`)

Python floats are embedded as exact rationals (`ℚ`).  Python exceptions are
embedded as `Except PyError`.  The two sources of nondeterminism inside
`AlertEngine.check_alerts` — `uuid.uuid4().hex[:8]` and `datetime.now()` —
are made explicit inputs: an id supply `gen : ℕ → String` (the k-th random
hex draw) and a clock reading `now : DateTime`.  The trigonometric
`calculate_distance` (haversine over floats) is kept abstract: the seismic
flows are parameterised by the distance function, and all claims about them
are proved for every distance function, hence for the haversine one.
-/

set_option linter.unusedVariables false
set_option linter.unusedTactic false

/-- A raised Python exception.  The only exception reachable in the embedded
code is `ValueError` (from `max()` on an empty sequence and from the
`UserType` enum constructor). -/
inductive PyError where
  | valueError
deriving DecidableEq, Repr

/-- A `datetime.datetime` value.  Only identity (equality) and the `.hour`
projection are used by the embedded code, so the embedding carries an
abstract epoch together with the local hour. -/
structure DateTime where
  epoch : ℤ
  hour : ℕ
deriving DecidableEq, Repr

/-- Python `sum()` over a list: left fold of addition starting at 0. -/
def pysum (l : List ℚ) : ℚ :=
  l.foldl (· + ·) 0

/-- Python `max()` over a list: raises `ValueError` on an empty sequence. -/
def pymax (l : List ℚ) : Except PyError ℚ :=
  match l with
  | [] => .error PyError.valueError
  | x :: xs => .ok (xs.foldl max x)

/-- Maximum of a list with a default for the (dead) empty case; used where
the source calls `max()` on a sequence that is provably non-empty. -/
def maxD (l : List ℚ) (d : ℚ) : ℚ :=
  match l with
  | [] => d
  | x :: xs => xs.foldl max x

/-- Minimum of a list with a default for the (dead) empty case; used where
the source calls `min()` on a sequence that is provably non-empty. -/
def minD (l : List ℚ) (d : ℚ) : ℚ :=
  match l with
  | [] => d
  | x :: xs => xs.foldl min x

/-- Python `round()` to the nearest integer, ties to even (banker's
rounding). -/
def roundHalfEven (q : ℚ) : ℤ :=
  let f := ⌊q⌋
  let r := q - f
  if r < 1/2 then f
  else if 1/2 < r then f + 1
  else if f % 2 = 0 then f else f + 1

/-- Python `int()` applied to a float: truncation toward zero. -/
def pyInt (q : ℚ) : ℤ :=
  if q < 0 then ⌈q⌉ else ⌊q⌋

/-- Python `round(x, 1)`: round to one decimal place, ties to even. -/
def pyRound1 (q : ℚ) : ℚ :=
  (roundHalfEven (q * 10) : ℚ) / 10

/-- Rendering of a number for Python fixed-point formatting `{x:.1f}`. -/
def fmt1 (q : ℚ) : String :=
  let n : ℤ := roundHalfEven (q * 10)
  let sign := if n < 0 then "-" else ""
  let m := n.natAbs
  sign ++ toString (m / 10) ++ "." ++ toString (m % 10)

/-- Rendering of a number for Python fixed-point formatting `{x:.0f}`. -/
def fmt0 (q : ℚ) : String :=
  toString (roundHalfEven q)

/-- Rendering of a float for Python f-string interpolation `{x}` (e.g.
`8.0` renders as "8.0").  Exact float `repr` is not modelled; integral
values are rendered with one decimal, others to one decimal place.  No
claim depends on this rendering. -/
def pyStr (q : ℚ) : String :=
  if q.den = 1 then toString q.num ++ ".0" else fmt1 q

/-- One stable-insertion step: the new element `a` goes after every already
placed element `b` with `keep b a = true`. -/
def insertStable (keep : α → α → Bool) (a : α) : List α → List α
  | [] => [a]
  | b :: bs => if keep b a then b :: insertStable keep a bs else a :: b :: bs

/-- Python's stable `sorted`/`list.sort`: elements are inserted in original
order, each after all earlier elements that compare `keep` to it.  For
`sorted(l, key=k)` use `keep b a := k b ≤ k a`; for `reverse=True` use
`keep b a := k b ≥ k a`. -/
def stableSortBy (keep : α → α → Bool) (l : List α) : List α :=
  l.foldl (fun acc a => insertStable keep a acc) []

/-- Substring test on character lists (needle, haystack). -/
def hasSub [DecidableEq α] (n : List α) : List α → Bool
  | [] => decide (n = [])
  | c :: t => n.isPrefixOf (c :: t) || hasSub n t

namespace RiskCalculator

/-- `RiskCalculator.calculate_temperature_risk`. -/
def calculate_temperature_risk (temp : ℚ) : ℚ :=
  if 15 ≤ temp ∧ temp ≤ 25 then 0
  else if temp > 25 then min 100 ((temp - 25) / 20 * 100)
  else min 100 ((15 - temp) / 20 * 100)

/-- `RiskCalculator.calculate_precipitation_risk`. -/
def calculate_precipitation_risk (precip_mm : ℚ) : ℚ :=
  min 100 (precip_mm / 100 * 100)

/-- `RiskCalculator.calculate_wind_risk`. -/
def calculate_wind_risk (wind_speed_kmh : ℚ) : ℚ :=
  if wind_speed_kmh < 30 then wind_speed_kmh / 30 * 30
  else if wind_speed_kmh < 60 then 30 + (wind_speed_kmh - 30) / 30 * 40
  else min 100 (70 + (wind_speed_kmh - 60) / 40 * 30)

/-- `RiskCalculator.calculate_humidity_risk`. -/
def calculate_humidity_risk (humidity temp : ℚ) : ℚ :=
  if temp < 25 ∨ humidity < 60 then 0
  else min 100 ((humidity - 60) / 40 * 100)

/-- `RiskCalculator.calculate_visibility_risk`. -/
def calculate_visibility_risk (visibility_km : ℚ) : ℚ :=
  if 10 ≤ visibility_km then 0
  else min 100 ((10 - visibility_km) / 10 * 100)

/-- `RiskCalculator.calculate_risk_score`: weighted combination of the five
sub-scores, clamped to [0, 100]. -/
def calculate_risk_score (temperature precipitation wind_speed humidity visibility : ℚ) : ℚ :=
  let risk_score :=
    calculate_temperature_risk temperature * (30/100) +
    calculate_precipitation_risk precipitation * (25/100) +
    calculate_wind_risk wind_speed * (25/100) +
    calculate_humidity_risk humidity temperature * (10/100) +
    calculate_visibility_risk visibility * (10/100)
  min 100 (max 0 risk_score)

/-- `RiskCalculator.get_risk_level`. -/
def get_risk_level (score : ℚ) : String :=
  if score ≤ 20 then "LOW"
  else if score ≤ 40 then "MODERATE"
  else if score ≤ 60 then "MEDIUM"
  else if score ≤ 80 then "HIGH"
  else "SEVERE"

end RiskCalculator

namespace RiskCalculator

theorem clamp_mono {s s' : ℚ} (h : s ≤ s') :
    min 100 (max 0 s) ≤ min 100 (max 0 s') :=
  min_le_min le_rfl (max_le_max le_rfl h)

theorem precipitation_risk_mono {p p' : ℚ} (h : p ≤ p') :
    calculate_precipitation_risk p ≤ calculate_precipitation_risk p' := by
  unfold calculate_precipitation_risk
  have hp : p / 100 * 100 = p := by ring
  have hp' : p' / 100 * 100 = p' := by ring
  rw [hp, hp']
  exact min_le_min le_rfl h

theorem wind_risk_mono {w w' : ℚ} (h : w ≤ w') :
    calculate_wind_risk w ≤ calculate_wind_risk w' := by
  unfold calculate_wind_risk
  split_ifs with h1 h2 h3 h4 h5 h6 h7 h8 <;>
    first
      | linarith
      | (rw [le_min_iff]; constructor <;> linarith)
      | (refine le_trans (min_le_left _ _) ?_; linarith)
      | (exact min_le_min le_rfl (by linarith))

theorem humidity_risk_mono {h h' t : ℚ} (ht : 25 < t) (hh : h ≤ h') :
    calculate_humidity_risk h t ≤ calculate_humidity_risk h' t := by
  unfold calculate_humidity_risk
  split_ifs with h1 h2 h2
  · exact le_rfl
  · push_neg at h2
    rw [le_min_iff]
    constructor
    · norm_num
    · nlinarith [h2.2]
  · push_neg at h1
    exfalso
    rcases h2 with h2 | h2
    · linarith [h1.1]
    · linarith [h1.2]
  · exact min_le_min le_rfl (by nlinarith)

end RiskCalculator

/-- C2: for every rational input tuple, `calculate_risk_score` lies in
[0,100], and — holding the other inputs fixed — it is monotonically
non-decreasing in precipitation, in wind speed, and (when the temperature
is above 25 °C) in humidity. -/
theorem C2_risk_score_bounded_and_monotone :
    (∀ t p w h v : ℚ,
        0 ≤ RiskCalculator.calculate_risk_score t p w h v ∧
        RiskCalculator.calculate_risk_score t p w h v ≤ 100) ∧
    (∀ t p p' w h v : ℚ, p ≤ p' →
        RiskCalculator.calculate_risk_score t p w h v ≤
        RiskCalculator.calculate_risk_score t p' w h v) ∧
    (∀ t p w w' h v : ℚ, w ≤ w' →
        RiskCalculator.calculate_risk_score t p w h v ≤
        RiskCalculator.calculate_risk_score t p w' h v) ∧
    (∀ t p w h h' v : ℚ, 25 < t → h ≤ h' →
        RiskCalculator.calculate_risk_score t p w h v ≤
        RiskCalculator.calculate_risk_score t p w h' v) := by
  refine ⟨?_, ?_, ?_, ?_⟩
  · intro t p w h v
    unfold RiskCalculator.calculate_risk_score
    constructor
    · exact le_min (by norm_num) (le_max_left _ _)
    · exact min_le_left _ _
  · intro t p p' w h v hp
    unfold RiskCalculator.calculate_risk_score
    refine RiskCalculator.clamp_mono ?_
    have := RiskCalculator.precipitation_risk_mono hp
    nlinarith [RiskCalculator.precipitation_risk_mono hp]
  · intro t p w w' h v hw
    unfold RiskCalculator.calculate_risk_score
    refine RiskCalculator.clamp_mono ?_
    nlinarith [RiskCalculator.wind_risk_mono hw]
  · intro t p w h h' v ht hh
    unfold RiskCalculator.calculate_risk_score
    refine RiskCalculator.clamp_mono ?_
    nlinarith [RiskCalculator.humidity_risk_mono ht hh]

/-- Witness for C2 at concrete inputs. -/
theorem C2_risk_score_witness :
    ((0:ℚ) ≤ RiskCalculator.calculate_risk_score 20 0 10 50 10 ∧
      RiskCalculator.calculate_risk_score 20 0 10 50 10 ≤ 100) ∧
    RiskCalculator.calculate_risk_score 20 0 10 50 10 ≤
      RiskCalculator.calculate_risk_score 20 30 10 50 10 ∧
    RiskCalculator.calculate_risk_score 20 0 10 50 10 ≤
      RiskCalculator.calculate_risk_score 20 0 45 50 10 ∧
    RiskCalculator.calculate_risk_score 30 0 10 70 10 ≤
      RiskCalculator.calculate_risk_score 30 0 10 90 10 :=
  ⟨C2_risk_score_bounded_and_monotone.1 20 0 10 50 10,
   C2_risk_score_bounded_and_monotone.2.1 20 0 30 10 50 10 (by norm_num),
   C2_risk_score_bounded_and_monotone.2.2.1 20 0 10 45 50 10 (by norm_num),
   C2_risk_score_bounded_and_monotone.2.2.2 30 0 10 70 90 10 (by norm_num) (by norm_num)⟩

/-- `app.models.alert.AlertType`. -/
inductive AlertType where
  | HEATWAVE
  | HEAVY_RAIN
  | STORM
  | COLD_WAVE
  | HIGH_HUMIDITY
deriving DecidableEq, Repr

/-- `app.models.alert.Severity`. -/
inductive Severity where
  | LOW
  | MODERATE
  | HIGH
  | SEVERE
deriving DecidableEq, Repr

/-- `app.models.user.UserType`. -/
inductive UserType where
  | STUDENT
  | FARMER
  | TRAVELLER
  | DELIVERY_WORKER
  | GENERAL
deriving DecidableEq, Repr

/-- `app.models.weather.HourlyForecast`. -/
structure HourlyForecast where
  timestamp : DateTime
  temperature : ℚ
  feels_like : ℚ
  condition : String
  icon : String
  precipitation : ℚ
  humidity : ℚ
  wind_speed : ℚ
deriving DecidableEq, Repr

/-- `app.models.alert.Alert`. -/
structure Alert where
  id : String
  type : AlertType
  severity : Severity
  title : String
  message : String
  recommendations : List String
  start_time : Option DateTime
  end_time : Option DateTime
  created_at : DateTime
  acknowledged : Bool := false
deriving DecidableEq, Repr

/-- `app.models.user.CustomThresholds` with its field defaults. -/
structure CustomThresholds where
  heatwave_temp : ℚ := 35
  heavy_rain_amount : ℚ := 50
  high_wind_speed : ℚ := 60
  cold_wave_temp : ℚ := 5
  high_humidity : ℚ := 85
deriving DecidableEq, Repr

namespace AlertEngine

/-- The `UserType(user_type)` enum constructor: raises `ValueError` on a
string that is not one of the five member values. -/
def userTypeOf (s : String) : Except PyError UserType :=
  if s = "STUDENT" then .ok .STUDENT
  else if s = "FARMER" then .ok .FARMER
  else if s = "TRAVELLER" then .ok .TRAVELLER
  else if s = "DELIVERY_WORKER" then .ok .DELIVERY_WORKER
  else if s = "GENERAL" then .ok .GENERAL
  else .error PyError.valueError

/-- `AlertEngine._get_heatwave_severity`. -/
def get_heatwave_severity (temp : ℚ) : Severity :=
  if temp > 42 then .SEVERE
  else if temp > 38 then .HIGH
  else .MODERATE

/-- `AlertEngine._get_rain_severity`. -/
def get_rain_severity (precipitation : ℚ) : Severity :=
  if precipitation > 150 then .SEVERE
  else if precipitation > 100 then .HIGH
  else .MODERATE

/-- `AlertEngine._get_wind_severity`. -/
def get_wind_severity (wind_speed : ℚ) : Severity :=
  if wind_speed > 100 then .SEVERE
  else if wind_speed > 80 then .HIGH
  else .MODERATE

/-- `AlertEngine._get_cold_severity`. -/
def get_cold_severity (temp : ℚ) : Severity :=
  if temp < -5 then .SEVERE
  else if temp < 0 then .HIGH
  else .MODERATE

/-- The fixed base recommendation list each detector attaches to its alert
(the literal lists in `_check_heatwave` … `_check_high_humidity`). -/
def baseRecommendations : AlertType → List String
  | .HEATWAVE =>
      ["Avoid outdoor activities during peak hours (12 PM - 4 PM)",
       "Stay hydrated and drink plenty of water",
       "Use sunscreen and wear protective clothing",
       "Check on elderly and vulnerable individuals"]
  | .HEAVY_RAIN =>
      ["Carry an umbrella or raincoat",
       "Allow extra time for commute",
       "Avoid flood-prone areas",
       "Check weather updates regularly"]
  | .STORM =>
      ["Stay indoors if possible",
       "Secure loose objects outdoors",
       "Avoid areas with trees and power lines",
       "Postpone outdoor activities"]
  | .COLD_WAVE =>
      ["Wear warm clothing in layers",
       "Protect exposed skin",
       "Check heating systems",
       "Be aware of frost and ice"]
  | .HIGH_HUMIDITY =>
      ["Stay in air-conditioned spaces",
       "Drink plenty of fluids",
       "Limit strenuous outdoor activities",
       "Watch for signs of heat exhaustion"]

/-- `AlertEngine._check_heatwave`.  `idHex` is the `uuid4().hex[:8]` draw
used if the alert fires; `now` is the `datetime.now()` reading used for the
model's `created_at` default. -/
def check_heatwave (idHex : String) (now : DateTime)
    (forecast : List HourlyForecast) (threshold : ℚ) : Option Alert :=
  let high_temp_hours := (forecast.take 24).filter fun item =>
    decide (item.temperature > threshold) &&
      (decide (10 ≤ item.timestamp.hour) && decide (item.timestamp.hour ≤ 18))
  if high_temp_hours.length ≥ 3 then
    let max_temp := maxD (high_temp_hours.map (·.temperature)) 0
    some
      { id := "alert_" ++ idHex
        type := .HEATWAVE
        severity := get_heatwave_severity max_temp
        title := "Heatwave Alert"
        message := "Temperature expected to reach " ++ fmt1 max_temp ++ "°C for " ++
          toString high_temp_hours.length ++ " hours"
        recommendations := baseRecommendations .HEATWAVE
        start_time := high_temp_hours.head?.map (·.timestamp)
        end_time := high_temp_hours.getLast?.map (·.timestamp)
        created_at := now }
  else
    none

/-- `AlertEngine._check_heavy_rain`.  The `max()` over the first 8 points
raises `ValueError` when the forecast is empty. -/
def check_heavy_rain (idHex : String) (now : DateTime)
    (forecast : List HourlyForecast) (threshold : ℚ) : Except PyError (Option Alert) :=
  let total_precipitation := pysum ((forecast.take 8).map (·.precipitation))
  match pymax ((forecast.take 8).map (·.precipitation)) with
  | .error e => .error e
  | .ok max_intensity =>
    if total_precipitation > threshold ∨ max_intensity > 10 then
      let rainy_periods := (forecast.take 8).filter fun item => decide (item.precipitation > 0)
      .ok (some
        { id := "alert_" ++ idHex
          type := .HEAVY_RAIN
          severity := get_rain_severity total_precipitation
          title := "Heavy Rain Alert"
          message := "Expected rainfall: " ++ fmt1 total_precipitation ++ "mm in next 24 hours"
          recommendations := baseRecommendations .HEAVY_RAIN
          start_time := rainy_periods.head?.map (·.timestamp)
          end_time := rainy_periods.getLast?.map (·.timestamp)
          created_at := now })
    else
      .ok none

/-- `AlertEngine._check_storm`.  The tags paired with each wind reading in
the source (`"current"` / the timestamp) are never read, so only the wind
speeds are collected. -/
def check_storm (idHex : String) (now : DateTime)
    (forecast : List HourlyForecast) (current_wind threshold : ℚ) : Option Alert :=
  let high_wind_periods : List ℚ :=
    (if current_wind > threshold then [current_wind] else []) ++
      (forecast.take 8).filterMap fun item =>
        if item.wind_speed > threshold then some item.wind_speed else none
  if high_wind_periods ≠ [] then
    let max_wind := maxD high_wind_periods 0
    some
      { id := "alert_" ++ idHex
        type := .STORM
        severity := get_wind_severity max_wind
        title := "High Wind / Storm Alert"
        message := "Wind speeds expected to reach " ++ fmt1 max_wind ++ " km/h"
        recommendations := baseRecommendations .STORM
        start_time := some now
        end_time := none
        created_at := now }
  else
    none

/-- `AlertEngine._check_cold_wave`. -/
def check_cold_wave (idHex : String) (now : DateTime)
    (forecast : List HourlyForecast) (threshold : ℚ) : Option Alert :=
  let cold_hours := (forecast.take 24).filter fun item => decide (item.temperature < threshold)
  if cold_hours.length ≥ 3 then
    let min_temp := minD (cold_hours.map (·.temperature)) 0
    some
      { id := "alert_" ++ idHex
        type := .COLD_WAVE
        severity := get_cold_severity min_temp
        title := "Cold Wave Alert"
        message := "Temperature expected to drop to " ++ fmt1 min_temp ++ "°C for " ++
          toString cold_hours.length ++ " hours"
        recommendations := baseRecommendations .COLD_WAVE
        start_time := cold_hours.head?.map (·.timestamp)
        end_time := cold_hours.getLast?.map (·.timestamp)
        created_at := now }
  else
    none

/-- `AlertEngine._check_high_humidity`. -/
def check_high_humidity (idHex : String) (now : DateTime)
    (temperature humidity threshold : ℚ) : Option Alert :=
  if humidity > threshold then
    let heat_index := temperature + (humidity - 60) * (1/10)
    some
      { id := "alert_" ++ idHex
        type := .HIGH_HUMIDITY
        severity := .MODERATE
        title := "High Humidity Alert"
        message := "Humidity at " ++ fmt0 humidity ++ "% with temperature " ++
          fmt1 temperature ++ "°C"
        recommendations := baseRecommendations .HIGH_HUMIDITY
        start_time := some now
        end_time := none
        created_at := now }
  else
    none

/-- The nested `user_recommendations` lookup table in
`AlertEngine._personalize_alerts`; `none` models an absent key. -/
def user_recommendations (ut : UserType) (t : AlertType) : Option (List String) :=
  match ut, t with
  | .STUDENT, .HEATWAVE =>
      some ["Plan indoor study sessions", "Carry water bottle to school"]
  | .STUDENT, .HEAVY_RAIN =>
      some ["Allow extra time for commute", "Keep books and electronics protected"]
  | .STUDENT, .STORM =>
      some ["Stay in school building if weather worsens", "Inform parents about weather"]
  | .STUDENT, .HIGH_HUMIDITY =>
      some ["Stay in air-conditioned classrooms", "Carry extra water to school"]
  | .STUDENT, .COLD_WAVE => none
  | .FARMER, .HEATWAVE =>
      some ["Work during early morning or late evening", "Ensure worker hydration"]
  | .FARMER, .HEAVY_RAIN =>
      some ["Protect crops and equipment", "Check drainage systems", "Delay harvesting"]
  | .FARMER, .STORM =>
      some ["Secure farm equipment", "Protect livestock", "Check barn structures"]
  | .FARMER, .COLD_WAVE =>
      some ["Protect sensitive crops", "Ensure livestock shelter", "Check irrigation systems"]
  | .FARMER, .HIGH_HUMIDITY =>
      some ["Monitor crop health for fungal diseases",
            "Ensure proper ventilation in storage"]
  | .TRAVELLER, .HEATWAVE =>
      some ["Plan indoor activities", "Carry sufficient water", "Avoid peak sun hours"]
  | .TRAVELLER, .HEAVY_RAIN =>
      some ["Check road conditions", "Avoid flood-prone routes", "Have alternate plans"]
  | .TRAVELLER, .STORM =>
      some ["Postpone travel if possible", "Seek shelter", "Avoid coastal areas"]
  | .TRAVELLER, .HIGH_HUMIDITY =>
      some ["Plan indoor sightseeing", "Stay hydrated during outdoor activities"]
  | .TRAVELLER, .COLD_WAVE => none
  | .DELIVERY_WORKER, .HEATWAVE =>
      some ["Schedule deliveries for cooler hours", "Keep vehicle AC functional"]
  | .DELIVERY_WORKER, .HEAVY_RAIN =>
      some ["Use waterproof packaging", "Plan safer routes"]
  | .DELIVERY_WORKER, .STORM =>
      some ["Delay deliveries if unsafe", "Stay in touch with dispatch"]
  | .DELIVERY_WORKER, .HIGH_HUMIDITY =>
      some ["Take frequent breaks in AC", "Keep extra water in vehicle"]
  | .DELIVERY_WORKER, .COLD_WAVE => none
  | .GENERAL, .HEATWAVE =>
      some ["Stay indoors during peak hours", "Drink plenty of water"]
  | .GENERAL, .HEAVY_RAIN =>
      some ["Carry umbrella", "Avoid unnecessary travel"]
  | .GENERAL, .STORM =>
      some ["Stay indoors", "Secure outdoor items"]
  | .GENERAL, .COLD_WAVE =>
      some ["Wear warm clothing", "Keep heating systems ready"]
  | .GENERAL, .HIGH_HUMIDITY =>
      some ["Use air conditioning if available", "Stay hydrated"]

/-- `AlertEngine._personalize_alerts`: the `ValueError` from the enum
constructor is caught, skipping personalization; otherwise each alert's
recommendation list is extended in place with the entry for
`(user_type, alert.type)` when that pair is present.  (Every `UserType` is
a key of the outer dict, so the `in` check always succeeds.) -/
def personalize_alerts (alerts : List Alert) (user_type : String) : List Alert :=
  match userTypeOf user_type with
  | .error _ => alerts
  | .ok ut =>
    alerts.map fun a =>
      { a with recommendations := a.recommendations ++ (user_recommendations ut a.type).getD [] }

/-- The `severity_order` rank table in `AlertEngine._prioritize_alerts`.
The `.get(…, 0)` default is unreachable: the table is total on `Severity`. -/
def severity_order : Severity → ℕ
  | .SEVERE => 4
  | .HIGH => 3
  | .MODERATE => 2
  | .LOW => 1

/-- `AlertEngine._prioritize_alerts`: Python's stable `sorted` with
`key=severity_order`, `reverse=True`. -/
def prioritize_alerts (alerts : List Alert) : List Alert :=
  stableSortBy (fun b a => decide (severity_order a.severity ≤ severity_order b.severity)) alerts

/-- `AlertEngine.check_alerts`.  `gen k` is the k-th `uuid4().hex[:8]` draw
of the call and `now` the wall-clock reading; both are explicit inputs so
that the call is a function.  The heavy-rain detector can raise, which
aborts the whole call (there is no handler in the source). -/
def check_alerts (gen : ℕ → String) (now : DateTime)
    (hourly_forecast : List HourlyForecast)
    (current_temp current_humidity current_wind : ℚ)
    (user_type : String)
    (custom_thresholds : Option CustomThresholds) : Except PyError (List Alert) :=
  let thresholds := custom_thresholds.getD {}
  let heatwave_alert := check_heatwave (gen 0) now hourly_forecast thresholds.heatwave_temp
  let k1 := if heatwave_alert.isSome then 1 else 0
  match check_heavy_rain (gen k1) now hourly_forecast thresholds.heavy_rain_amount with
  | .error e => .error e
  | .ok heavy_rain_alert =>
    let k2 := k1 + if heavy_rain_alert.isSome then 1 else 0
    let storm_alert :=
      check_storm (gen k2) now hourly_forecast current_wind thresholds.high_wind_speed
    let k3 := k2 + if storm_alert.isSome then 1 else 0
    let cold_wave_alert := check_cold_wave (gen k3) now hourly_forecast thresholds.cold_wave_temp
    let k4 := k3 + if cold_wave_alert.isSome then 1 else 0
    let humidity_alert :=
      check_high_humidity (gen k4) now current_temp current_humidity thresholds.high_humidity
    let alerts := heatwave_alert.toList ++ heavy_rain_alert.toList ++ storm_alert.toList ++
      cold_wave_alert.toList ++ humidity_alert.toList
    .ok (prioritize_alerts (personalize_alerts alerts user_type))

end AlertEngine

section SortLemmas

variable {α β : Type _}

theorem mem_insertStable (keep : α → α → Bool) (a x : α) :
    ∀ l : List α, x ∈ insertStable keep a l ↔ x = a ∨ x ∈ l
  | [] => by simp [insertStable]
  | b :: bs => by
    simp only [insertStable]
    split
    · simp only [List.mem_cons, mem_insertStable keep a x bs]
      tauto
    · simp only [List.mem_cons]

theorem mem_stableSortBy (keep : α → α → Bool) (x : α) (l : List α) :
    x ∈ stableSortBy keep l ↔ x ∈ l := by
  suffices h : ∀ (l : List α) (acc : List α),
      x ∈ l.foldl (fun acc a => insertStable keep a acc) acc ↔ x ∈ acc ∨ x ∈ l by
    simpa [stableSortBy] using h l []
  intro l
  induction l with
  | nil => simp
  | cons a t ih =>
    intro acc
    simp only [List.foldl_cons, ih, mem_insertStable]
    constructor
    · rintro ((h | h) | h) <;> simp_all
    · rintro (h | h) <;> simp_all
      tauto

/-- The ordering that a stable descending-by-rank sort establishes: strictly
greater rank first, and the auxiliary relation `P` (original order) within
equal ranks. -/
def rankRel (r : α → ℕ) (P : α → α → Prop) (a b : α) : Prop :=
  r b < r a ∨ (r a = r b ∧ P a b)

theorem insertStable_rank_pairwise (r : α → ℕ) (P : α → α → Prop) (a : α) :
    ∀ l : List α, l.Pairwise (rankRel r P) → (∀ x ∈ l, P x a) →
      (insertStable (fun b c => decide (r c ≤ r b)) a l).Pairwise (rankRel r P)
  | [], _, _ => by simp [insertStable]
  | b :: bs, hl, hP => by
    simp only [insertStable]
    rw [List.pairwise_cons] at hl
    split
    · rename_i hkeep
      rw [decide_eq_true_eq] at hkeep
      refine List.Pairwise.cons ?_ ?_
      · intro y hy
        rw [mem_insertStable] at hy
        rcases hy with rfl | hy
        · rcases lt_or_eq_of_le hkeep with h | h
          · exact Or.inl h
          · exact Or.inr ⟨h.symm, hP b (by simp)⟩
        · exact hl.1 y hy
      · exact insertStable_rank_pairwise r P a bs hl.2
          (fun x hx => hP x (List.mem_cons_of_mem b hx))
    · rename_i hkeep
      rw [decide_eq_true_eq] at hkeep
      push_neg at hkeep
      refine List.Pairwise.cons ?_ (List.Pairwise.cons hl.1 hl.2)
      intro y hy
      rcases List.mem_cons.mp hy with rfl | hy
      · exact Or.inl hkeep
      · refine Or.inl ?_
        rcases hl.1 y hy with h | h
        · exact lt_trans h hkeep
        · exact h.1 ▸ hkeep

theorem stableSortBy_rank_pairwise (r : α → ℕ) (P : α → α → Prop) (l : List α)
    (hl : l.Pairwise P) :
    (stableSortBy (fun b c => decide (r c ≤ r b)) l).Pairwise (rankRel r P) := by
  suffices h : ∀ (l acc : List α), l.Pairwise P → acc.Pairwise (rankRel r P) →
      (∀ x ∈ acc, ∀ y ∈ l, P x y) →
      (l.foldl (fun acc a => insertStable (fun b c => decide (r c ≤ r b)) a acc) acc).Pairwise
        (rankRel r P) by
    exact h l [] hl (by simp) (by simp)
  intro l
  induction l with
  | nil => intro acc _ ha _; simpa using ha
  | cons a t ih =>
    intro acc hl ha hacc
    rw [List.pairwise_cons] at hl
    refine ih _ hl.2 ?_ ?_
    · exact insertStable_rank_pairwise r P a acc ha
        (fun x hx => hacc x hx a (by simp))
    · intro x hx y hy
      rw [mem_insertStable] at hx
      rcases hx with rfl | hx
      · exact hl.1 y hy
      · exact hacc x hx y (List.mem_cons_of_mem a hy)

theorem map_insertStable (f : α → β) (ka : α → α → Bool) (kb : β → β → Bool)
    (hk : ∀ a b, kb (f a) (f b) = ka a b) (a : α) :
    ∀ l : List α, (insertStable ka a l).map f = insertStable kb (f a) (l.map f)
  | [] => by simp [insertStable]
  | b :: bs => by
    simp only [insertStable, List.map_cons, hk]
    split
    · simp [map_insertStable f ka kb hk a bs]
    · simp

theorem map_stableSortBy (f : α → β) (ka : α → α → Bool) (kb : β → β → Bool)
    (hk : ∀ a b, kb (f a) (f b) = ka a b) (l : List α) :
    (stableSortBy ka l).map f = stableSortBy kb (l.map f) := by
  suffices h : ∀ (l acc : List α),
      (l.foldl (fun acc a => insertStable ka a acc) acc).map f =
        (l.map f).foldl (fun acc b => insertStable kb b acc) (acc.map f) by
    simpa [stableSortBy] using h l []
  intro l
  induction l with
  | nil => simp
  | cons a t ih =>
    intro acc
    simp only [List.foldl_cons, List.map_cons, ih, map_insertStable f ka kb hk]

end SortLemmas

namespace AlertEngine

/-- Erasure of the nondeterministically generated parts of an `Alert`: the
random id, the `created_at` clock reading, and — for the two detectors
whose `start_time` is `datetime.now()` (storm and high humidity) — the
start time. -/
def scrub (a : Alert) : Alert :=
  { a with
    id := ""
    created_at := ⟨0, 0⟩
    start_time :=
      if a.type = AlertType.STORM ∨ a.type = AlertType.HIGH_HUMIDITY then none
      else a.start_time }

theorem check_heatwave_scrub (i i' : String) (n n' : DateTime)
    (f : List HourlyForecast) (th : ℚ) :
    (check_heatwave i n f th).map scrub = (check_heatwave i' n' f th).map scrub := by
  simp only [check_heatwave]
  split <;> rfl

theorem check_heavy_rain_scrub (i i' : String) (n n' : DateTime)
    (f : List HourlyForecast) (th : ℚ) :
    (check_heavy_rain i n f th).map (Option.map scrub) =
      (check_heavy_rain i' n' f th).map (Option.map scrub) := by
  simp only [check_heavy_rain]
  split
  · rfl
  · split <;> rfl

theorem check_storm_scrub (i i' : String) (n n' : DateTime)
    (f : List HourlyForecast) (cw th : ℚ) :
    (check_storm i n f cw th).map scrub = (check_storm i' n' f cw th).map scrub := by
  simp only [check_storm]
  split <;> split <;> rfl

theorem check_cold_wave_scrub (i i' : String) (n n' : DateTime)
    (f : List HourlyForecast) (th : ℚ) :
    (check_cold_wave i n f th).map scrub = (check_cold_wave i' n' f th).map scrub := by
  simp only [check_cold_wave]
  split <;> rfl

theorem check_high_humidity_scrub (i i' : String) (n n' : DateTime)
    (t h th : ℚ) :
    (check_high_humidity i n t h th).map scrub =
      (check_high_humidity i' n' t h th).map scrub := by
  simp only [check_high_humidity]
  split <;> rfl

theorem scrub_type (a : Alert) : (scrub a).type = a.type := rfl

theorem scrub_severity (a : Alert) : (scrub a).severity = a.severity := rfl

theorem scrub_recommendations (a : Alert) :
    (scrub a).recommendations = a.recommendations := rfl

theorem personalize_map_scrub (l : List Alert) (s : String) :
    (personalize_alerts l s).map scrub = personalize_alerts (l.map scrub) s := by
  unfold personalize_alerts
  cases userTypeOf s with
  | error e => rfl
  | ok ut =>
    simp only [List.map_map]
    refine List.map_congr_left ?_
    intro a ha
    rfl

theorem prioritize_map_scrub (l : List Alert) :
    (prioritize_alerts l).map scrub = prioritize_alerts (l.map scrub) := by
  unfold prioritize_alerts
  exact map_stableSortBy scrub
    (fun b a => decide (severity_order a.severity ≤ severity_order b.severity))
    (fun b a => decide (severity_order a.severity ≤ severity_order b.severity))
    (fun a b => rfl) l

end AlertEngine

theorem toList_map_congr {α : Type _} {o o' : Option α} {f : α → α}
    (h : o.map f = o'.map f) : o.toList.map f = o'.toList.map f := by
  cases o <;> cases o' <;> simp_all

instance instDecEqExcept {ε α : Type _} [DecidableEq ε] [DecidableEq α] :
    DecidableEq (Except ε α) := fun x y =>
  match x, y with
  | .error e, .error e' =>
    if h : e = e' then isTrue (by rw [h]) else isFalse (by intro hc; cases hc; exact h rfl)
  | .error e, .ok a => isFalse (by intro hc; cases hc)
  | .ok a, .error e => isFalse (by intro hc; cases hc)
  | .ok a, .ok a' =>
    if h : a = a' then isTrue (by rw [h]) else isFalse (by intro hc; cases hc; exact h rfl)

/-- Fixed id supplies and clock readings used for concrete evaluations. -/
def genA : ℕ → String := fun _ => "aaaaaaaa"

def genB : ℕ → String := fun _ => "bbbbbbbb"

def now0 : DateTime := ⟨0, 0⟩

/-- A single benign forecast point (temperate, dry, calm). -/
def point1 : HourlyForecast :=
  { timestamp := ⟨100, 1⟩
    temperature := 20
    feels_like := 20
    condition := ""
    icon := ""
    precipitation := 0
    humidity := 50
    wind_speed := 0 }

/-- C4 (amended): `check_alerts` is deterministic once the generated ids
and the wall-clock reading are viewed as inputs; for any two invocations
with identical forecast series, current readings, user_type and thresholds
— but arbitrary id draws and clock readings — the resulting alert lists
agree after erasing the id fields, the `created_at` timestamps, and the
clock-derived start times of the STORM and HIGH_HUMIDITY alerts. -/
theorem C4_deterministic_modulo_ids_and_clock
    (gen gen' : ℕ → String) (now now' : DateTime) (f : List HourlyForecast)
    (ct ch cw : ℚ) (ut : String) (th : Option CustomThresholds) :
    (AlertEngine.check_alerts gen now f ct ch cw ut th).map
        (List.map AlertEngine.scrub) =
      (AlertEngine.check_alerts gen' now' f ct ch cw ut th).map
        (List.map AlertEngine.scrub) := by
  simp only [AlertEngine.check_alerts]
  have e1 := AlertEngine.check_heatwave_scrub (gen 0) (gen' 0) now now' f
    (th.getD {}).heatwave_temp
  have s1 : (AlertEngine.check_heatwave (gen 0) now f (th.getD {}).heatwave_temp).isSome =
      (AlertEngine.check_heatwave (gen' 0) now' f (th.getD {}).heatwave_temp).isSome := by
    have h := congrArg Option.isSome e1
    simpa using h
  rw [s1]
  have e2 := AlertEngine.check_heavy_rain_scrub
    (gen (if (AlertEngine.check_heatwave (gen' 0) now' f (th.getD {}).heatwave_temp).isSome
      then 1 else 0))
    (gen' (if (AlertEngine.check_heatwave (gen' 0) now' f (th.getD {}).heatwave_temp).isSome
      then 1 else 0)) now now' f (th.getD {}).heavy_rain_amount
  cases hR : AlertEngine.check_heavy_rain
      (gen (if (AlertEngine.check_heatwave (gen' 0) now' f (th.getD {}).heatwave_temp).isSome
        then 1 else 0)) now f (th.getD {}).heavy_rain_amount with
  | error e =>
    cases hR' : AlertEngine.check_heavy_rain
        (gen' (if (AlertEngine.check_heatwave (gen' 0) now' f (th.getD {}).heatwave_temp).isSome
          then 1 else 0)) now' f (th.getD {}).heavy_rain_amount with
    | error e' =>
      cases e
      cases e'
      rfl
    | ok o' =>
      rw [hR, hR'] at e2
      simp only [Except.map] at e2
      exact Except.noConfusion e2
  | ok o =>
    cases hR' : AlertEngine.check_heavy_rain
        (gen' (if (AlertEngine.check_heatwave (gen' 0) now' f (th.getD {}).heatwave_temp).isSome
          then 1 else 0)) now' f (th.getD {}).heavy_rain_amount with
    | error e' =>
      rw [hR, hR'] at e2
      simp only [Except.map] at e2
      exact Except.noConfusion e2
    | ok o' =>
      rw [hR, hR'] at e2
      simp only [Except.map, Except.ok.injEq] at e2
      have s2 : o.isSome = o'.isSome := by
        have h := congrArg Option.isSome e2
        simpa using h
      dsimp only
      rw [s2]
      have e3 := AlertEngine.check_storm_scrub
        (gen ((if (AlertEngine.check_heatwave (gen' 0) now' f
            (th.getD {}).heatwave_temp).isSome then 1 else 0) +
          if o'.isSome then 1 else 0))
        (gen' ((if (AlertEngine.check_heatwave (gen' 0) now' f
            (th.getD {}).heatwave_temp).isSome then 1 else 0) +
          if o'.isSome then 1 else 0)) now now' f cw (th.getD {}).high_wind_speed
      have s3 : (AlertEngine.check_storm
          (gen ((if (AlertEngine.check_heatwave (gen' 0) now' f
              (th.getD {}).heatwave_temp).isSome then 1 else 0) +
            if o'.isSome then 1 else 0)) now f cw (th.getD {}).high_wind_speed).isSome =
          (AlertEngine.check_storm
          (gen' ((if (AlertEngine.check_heatwave (gen' 0) now' f
              (th.getD {}).heatwave_temp).isSome then 1 else 0) +
            if o'.isSome then 1 else 0)) now' f cw (th.getD {}).high_wind_speed).isSome := by
        have h := congrArg Option.isSome e3
        simpa using h
      rw [s3]
      set K2 := (if (AlertEngine.check_heatwave (gen' 0) now' f
          (th.getD {}).heatwave_temp).isSome then 1 else 0) +
        if o'.isSome then 1 else 0 with hK2
      have e4 := AlertEngine.check_cold_wave_scrub
        (gen (K2 + if (AlertEngine.check_storm (gen' K2) now' f cw
            (th.getD {}).high_wind_speed).isSome then 1 else 0))
        (gen' (K2 + if (AlertEngine.check_storm (gen' K2) now' f cw
            (th.getD {}).high_wind_speed).isSome then 1 else 0)) now now' f
        (th.getD {}).cold_wave_temp
      have s4 : (AlertEngine.check_cold_wave
          (gen (K2 + if (AlertEngine.check_storm (gen' K2) now' f cw
              (th.getD {}).high_wind_speed).isSome then 1 else 0)) now f
          (th.getD {}).cold_wave_temp).isSome =
          (AlertEngine.check_cold_wave
          (gen' (K2 + if (AlertEngine.check_storm (gen' K2) now' f cw
              (th.getD {}).high_wind_speed).isSome then 1 else 0)) now' f
          (th.getD {}).cold_wave_temp).isSome := by
        have h := congrArg Option.isSome e4
        simpa using h
      rw [s4]
      set K3 := K2 + if (AlertEngine.check_storm (gen' K2) now' f cw
          (th.getD {}).high_wind_speed).isSome then 1 else 0 with hK3
      have e5 := AlertEngine.check_high_humidity_scrub
        (gen (K3 + if (AlertEngine.check_cold_wave (gen' K3) now' f
            (th.getD {}).cold_wave_temp).isSome then 1 else 0))
        (gen' (K3 + if (AlertEngine.check_cold_wave (gen' K3) now' f
            (th.getD {}).cold_wave_temp).isSome then 1 else 0)) now now' ct ch
        (th.getD {}).high_humidity
      simp only [Except.map]
      refine congrArg Except.ok ?_
      rw [AlertEngine.prioritize_map_scrub, AlertEngine.prioritize_map_scrub,
        AlertEngine.personalize_map_scrub, AlertEngine.personalize_map_scrub]
      refine congrArg AlertEngine.prioritize_alerts ?_
      refine congrArg (fun l => AlertEngine.personalize_alerts l ut) ?_
      simp only [List.map_append]
      rw [toList_map_congr e1, toList_map_congr e2, toList_map_congr e3,
        toList_map_congr e4, toList_map_congr e5]

/-- C4 (counterexample): two invocations of `check_alerts` with identical
forecast series, current readings, user_type and thresholds — differing
only in the hidden random uuid draw — return different alert lists (the
`id` fields differ), so `check_alerts` is not a pure function of the
inputs the claim lists. -/
theorem C4_counterexample_ids_differ :
    AlertEngine.check_alerts genA now0 [point1] 20 90 10 ("GENERAL") none ≠
      AlertEngine.check_alerts genB now0 [point1] 20 90 10 ("GENERAL") none := by
  with_unfolding_all decide

/-- C1: on an empty forecast with current wind 120 km/h against the default
wind threshold 60 km/h, `check_alerts` does not return a STORM alert — it
raises `ValueError`, because `_check_heavy_rain` applies `max()` to the
empty sequence of forecast precipitations.  The detectors with minimum
sample counts behave as the claim says (heatwave and cold-wave yield no
alert on the empty forecast), and the storm detector alone would yield a
SEVERE alert, but the heavy-rain detector aborts the whole call first. -/
theorem C1_empty_forecast_raises_value_error :
    AlertEngine.check_alerts genA now0 [] 20 50 120 ("GENERAL") none =
        .error PyError.valueError ∧
      AlertEngine.check_heavy_rain ("x") now0 [] 50 = .error PyError.valueError ∧
      AlertEngine.check_heatwave ("x") now0 [] 35 = none ∧
      AlertEngine.check_cold_wave ("x") now0 [] 5 = none ∧
      (AlertEngine.check_storm ("x") now0 [] 120 60).map (fun a => (a.type, a.severity)) =
        some (AlertType.STORM, Severity.SEVERE) := by
  refine ⟨by with_unfolding_all decide, by with_unfolding_all decide,
    by with_unfolding_all decide, by with_unfolding_all decide, by with_unfolding_all decide⟩

/-- The heatwave-qualifying forecast points as the specification describes
them: among the first 24 points, those whose temperature exceeds the
threshold and whose local hour lies in [10, 18]. -/
def heatwaveQualifying (forecast : List HourlyForecast) (threshold : ℚ) : List HourlyForecast :=
  (forecast.take 24).filter fun item =>
    decide (item.temperature > threshold) &&
      (decide (10 ≤ item.timestamp.hour) && decide (item.timestamp.hour ≤ 18))

/-- The k-th point of the 24-point example forecast: hour k, 40 °C at local
hours 11, 13 and 15, a temperate 20 °C elsewhere, dry and calm. -/
def exPoint (k : ℕ) : HourlyForecast :=
  { timestamp := ⟨k, k⟩
    temperature := if k = 11 ∨ k = 13 ∨ k = 15 then 40 else 20
    feels_like := 20
    condition := ""
    icon := ""
    precipitation := 0
    humidity := 50
    wind_speed := 0 }

/-- The 24-point example forecast of the heatwave claim. -/
def exForecast : List HourlyForecast := (List.range 24).map exPoint

/-- A placeholder alert used only to totalise `Option.getD` in witness
statements. -/
def dummyAlert : Alert :=
  { id := ""
    type := AlertType.HEATWAVE
    severity := Severity.MODERATE
    title := ""
    message := ""
    recommendations := []
    start_time := none
    end_time := none
    created_at := ⟨0, 0⟩ }

/-- C5: the heatwave detector keeps, among the first 24 forecast points,
exactly those above the threshold with local hour in [10, 18]; it fires iff
at least 3 such points exist, with severity SEVERE above 42 °C, HIGH above
38 °C, else MODERATE (measured on the maximum qualifying temperature), and
start/end times equal to the first/last qualifying point's timestamp.  On
the 24-point example forecast (40 °C exactly at local hours 11, 13, 15,
threshold 35) `check_alerts` returns exactly one HEATWAVE alert, severity
HIGH, spanning those three timestamps. -/
theorem C5_heatwave_detector :
    (∀ (i : String) (n : DateTime) (f : List HourlyForecast) (th : ℚ),
      (AlertEngine.check_heatwave i n f th = none ↔ (heatwaveQualifying f th).length < 3) ∧
      (∀ a : Alert, AlertEngine.check_heatwave i n f th = some a →
        a.type = AlertType.HEATWAVE ∧
        a.severity =
          (if maxD ((heatwaveQualifying f th).map (·.temperature)) 0 > 42 then Severity.SEVERE
           else if maxD ((heatwaveQualifying f th).map (·.temperature)) 0 > 38 then Severity.HIGH
           else Severity.MODERATE) ∧
        a.start_time = (heatwaveQualifying f th).head?.map (·.timestamp) ∧
        a.end_time = (heatwaveQualifying f th).getLast?.map (·.timestamp))) ∧
    (AlertEngine.check_alerts genA now0 exForecast 20 50 10 ("GENERAL") none).map
        (fun l => l.map fun a => (a.type, a.severity, a.start_time, a.end_time)) =
      .ok [(AlertType.HEATWAVE, Severity.HIGH,
        some (⟨11, 11⟩ : DateTime), some (⟨15, 15⟩ : DateTime))] := by
  constructor
  · intro i n f th
    constructor
    · simp only [AlertEngine.check_heatwave, heatwaveQualifying]
      split
      · rename_i h
        constructor
        · intro hc
          exact Option.noConfusion hc
        · intro hlen
          omega
      · rename_i h
        constructor
        · intro _
          omega
        · intro _
          rfl
    · intro a ha
      simp only [AlertEngine.check_heatwave] at ha
      split at ha
      · rename_i h
        injection ha with ha
        subst ha
        refine ⟨rfl, rfl, rfl, rfl⟩
      · exact Option.noConfusion ha
  · with_unfolding_all decide

/-- Witness for C5 at the example forecast. -/
theorem C5_heatwave_witness :
    ((AlertEngine.check_heatwave ("w") now0 exForecast 35).getD dummyAlert).severity =
      Severity.HIGH := by
  have h := (C5_heatwave_detector.1 ("w") now0 exForecast 35).2
    ((AlertEngine.check_heatwave ("w") now0 exForecast 35).getD dummyAlert)
    (by with_unfolding_all decide)
  rw [h.2.1]
  with_unfolding_all decide

namespace AlertEngine

/-- The evaluation order of the five detectors inside `check_alerts`,
indexed by the (unique) alert type each detector can emit. -/
def detector_index : AlertType → ℕ
  | .HEATWAVE => 0
  | .HEAVY_RAIN => 1
  | .STORM => 2
  | .COLD_WAVE => 3
  | .HIGH_HUMIDITY => 4

/-- What holds of every alert as a detector created it, before
personalization. -/
def detectorFact (a : Alert) : Prop :=
  a.severity ≠ Severity.LOW ∧ a.recommendations = baseRecommendations a.type

theorem check_heatwave_facts {i : String} {n : DateTime} {f : List HourlyForecast} {th : ℚ}
    {a : Alert} (h : check_heatwave i n f th = some a) :
    a.type = AlertType.HEATWAVE ∧ detectorFact a := by
  simp only [check_heatwave] at h
  split at h
  · injection h with h
    subst h
    refine ⟨rfl, ?_, rfl⟩
    simp only [get_heatwave_severity]
    split_ifs <;> simp
  · exact Option.noConfusion h

theorem check_heavy_rain_facts {i : String} {n : DateTime} {f : List HourlyForecast} {th : ℚ}
    {a : Alert} (h : check_heavy_rain i n f th = .ok (some a)) :
    a.type = AlertType.HEAVY_RAIN ∧ detectorFact a := by
  simp only [check_heavy_rain] at h
  split at h
  · exact Except.noConfusion h
  · split at h
    · injection h with h
      injection h with h
      subst h
      refine ⟨rfl, ?_, rfl⟩
      simp only [get_rain_severity]
      split_ifs <;> simp
    · injection h with h
      exact Option.noConfusion h

theorem check_storm_facts {i : String} {n : DateTime} {f : List HourlyForecast} {cw th : ℚ}
    {a : Alert} (h : check_storm i n f cw th = some a) :
    a.type = AlertType.STORM ∧ detectorFact a := by
  simp only [check_storm] at h
  split at h <;> split at h
  · injection h with h
    subst h
    exact ⟨rfl, by simp only [get_wind_severity]; split_ifs <;> simp, rfl⟩
  · exact Option.noConfusion h
  · injection h with h
    subst h
    exact ⟨rfl, by simp only [get_wind_severity]; split_ifs <;> simp, rfl⟩
  · exact Option.noConfusion h

theorem check_cold_wave_facts {i : String} {n : DateTime} {f : List HourlyForecast} {th : ℚ}
    {a : Alert} (h : check_cold_wave i n f th = some a) :
    a.type = AlertType.COLD_WAVE ∧ detectorFact a := by
  simp only [check_cold_wave] at h
  split at h
  · injection h with h
    subst h
    refine ⟨rfl, ?_, rfl⟩
    simp only [get_cold_severity]
    split_ifs <;> simp
  · exact Option.noConfusion h

theorem check_high_humidity_facts {i : String} {n : DateTime} {t hum th : ℚ}
    {a : Alert} (h : check_high_humidity i n t hum th = some a) :
    a.type = AlertType.HIGH_HUMIDITY ∧ detectorFact a := by
  simp only [check_high_humidity] at h
  split at h
  · injection h with h
    subst h
    exact ⟨rfl, by simp, rfl⟩
  · exact Option.noConfusion h

/-- Every alert in a successful `check_alerts` result is either a raw
detector alert or a personalized copy of one (identical except for the
appended per-user recommendations). -/
theorem check_alerts_mem_cases
    {gen : ℕ → String} {now : DateTime} {f : List HourlyForecast}
    {ct ch cw : ℚ} {ut : String} {th : Option CustomThresholds} {l : List Alert}
    (h : check_alerts gen now f ct ch cw ut th = .ok l) {a : Alert} (ha : a ∈ l) :
    detectorFact a ∨
      (∃ (u : UserType) (b : Alert), userTypeOf ut = .ok u ∧ detectorFact b ∧
        a = { b with recommendations :=
          b.recommendations ++ (user_recommendations u b.type).getD [] }) := by
  simp only [check_alerts] at h
  revert h
  cases hR : check_heavy_rain
      (gen (if (check_heatwave (gen 0) now f
        ((th.getD {}).heatwave_temp)).isSome then 1 else 0)) now f
      ((th.getD {}).heavy_rain_amount) with
  | error e =>
    intro h
    dsimp only at h
    exact Except.noConfusion h
  | ok o =>
    intro h
    dsimp only at h
    injection h with h
    subst h
    unfold prioritize_alerts at ha
    rw [mem_stableSortBy] at ha
    unfold personalize_alerts at ha
    revert ha
    cases hu : userTypeOf ut with
    | error e =>
      intro ha
      refine Or.inl ?_
      simp only [List.mem_append, Option.mem_toList, Option.mem_def] at ha
      rcases ha with ((((h1 | h2) | h3) | h4) | h5)
      · exact (check_heatwave_facts h1).2
      · rw [h2] at hR
        exact (check_heavy_rain_facts hR).2
      · exact (check_storm_facts h3).2
      · exact (check_cold_wave_facts h4).2
      · exact (check_high_humidity_facts h5).2
    | ok u =>
      intro ha
      rw [List.mem_map] at ha
      obtain ⟨b, hb, hab⟩ := ha
      refine Or.inr ⟨u, b, rfl, ?_, hab.symm⟩
      simp only [List.mem_append, Option.mem_toList, Option.mem_def] at hb
      rcases hb with ((((h1 | h2) | h3) | h4) | h5)
      · exact (check_heatwave_facts h1).2
      · rw [h2] at hR
        exact (check_heavy_rain_facts hR).2
      · exact (check_storm_facts h3).2
      · exact (check_cold_wave_facts h4).2
      · exact (check_high_humidity_facts h5).2

end AlertEngine

namespace AlertEngine

theorem personalize_pairwise_idx (l : List Alert) (s : String)
    (hl : l.Pairwise (fun a b => detector_index a.type < detector_index b.type)) :
    (personalize_alerts l s).Pairwise
      (fun a b => detector_index a.type < detector_index b.type) := by
  unfold personalize_alerts
  cases userTypeOf s with
  | error e => exact hl
  | ok u =>
    rw [List.pairwise_map]
    exact hl

theorem pre_pairwise (o1 o2 o3 o4 o5 : Option Alert)
    (h1 : ∀ a ∈ o1.toList, detector_index a.type = 0)
    (h2 : ∀ a ∈ o2.toList, detector_index a.type = 1)
    (h3 : ∀ a ∈ o3.toList, detector_index a.type = 2)
    (h4 : ∀ a ∈ o4.toList, detector_index a.type = 3)
    (h5 : ∀ a ∈ o5.toList, detector_index a.type = 4) :
    (o1.toList ++ o2.toList ++ o3.toList ++ o4.toList ++ o5.toList).Pairwise
      (fun a b => detector_index a.type < detector_index b.type) := by
  cases o1 <;> cases o2 <;> cases o3 <;> cases o4 <;> cases o5 <;>
    simp_all [List.pairwise_cons]

end AlertEngine

/-- C7: every successful `check_alerts` result is sorted in non-increasing
order of severity rank (SEVERE 4, HIGH 3, MODERATE 2, LOW 1), and alerts of
equal severity appear in detector evaluation order (heatwave, heavy rain,
storm, cold wave, high humidity — each detector emits a distinct alert
type, indexed by `detector_index`). -/
theorem C7_priority_order
    (gen : ℕ → String) (now : DateTime) (f : List HourlyForecast) (ct ch cw : ℚ)
    (ut : String) (th : Option CustomThresholds) (l : List Alert)
    (h : AlertEngine.check_alerts gen now f ct ch cw ut th = .ok l) :
    l.Pairwise (fun a b =>
      AlertEngine.severity_order b.severity < AlertEngine.severity_order a.severity ∨
      (AlertEngine.severity_order a.severity = AlertEngine.severity_order b.severity ∧
        AlertEngine.detector_index a.type < AlertEngine.detector_index b.type)) := by
  simp only [AlertEngine.check_alerts] at h
  revert h
  cases hR : AlertEngine.check_heavy_rain
      (gen (if (AlertEngine.check_heatwave (gen 0) now f
        ((th.getD {}).heatwave_temp)).isSome then 1 else 0)) now f
      ((th.getD {}).heavy_rain_amount) with
  | error e =>
    intro h
    dsimp only at h
    exact Except.noConfusion h
  | ok o =>
    intro h
    dsimp only at h
    injection h with h
    subst h
    unfold AlertEngine.prioritize_alerts
    refine List.Pairwise.imp ?_
      (stableSortBy_rank_pairwise (fun a => AlertEngine.severity_order a.severity)
        (fun a b => AlertEngine.detector_index a.type < AlertEngine.detector_index b.type) _
        (AlertEngine.personalize_pairwise_idx _ ut
          (AlertEngine.pre_pairwise _ _ _ _ _ ?_ ?_ ?_ ?_ ?_)))
    · intro a b hab
      simpa [rankRel] using hab
    · intro a ha
      rw [Option.mem_toList, Option.mem_def] at ha
      rw [(AlertEngine.check_heatwave_facts ha).1]
      rfl
    · intro a ha
      rw [Option.mem_toList, Option.mem_def] at ha
      rw [ha] at hR
      rw [(AlertEngine.check_heavy_rain_facts hR).1]
      rfl
    · intro a ha
      rw [Option.mem_toList, Option.mem_def] at ha
      rw [(AlertEngine.check_storm_facts ha).1]
      rfl
    · intro a ha
      rw [Option.mem_toList, Option.mem_def] at ha
      rw [(AlertEngine.check_cold_wave_facts ha).1]
      rfl
    · intro a ha
      rw [Option.mem_toList, Option.mem_def] at ha
      rw [(AlertEngine.check_high_humidity_facts ha).1]
      rfl

/-- Witness for C7: a run producing two alerts (heatwave HIGH, then
high-humidity MODERATE) is correctly ordered. -/
theorem C7_priority_witness :
    ((AlertEngine.check_alerts genA now0 exForecast 20 90 10 ("GENERAL") none).toOption.getD
        []).Pairwise (fun a b =>
      AlertEngine.severity_order b.severity < AlertEngine.severity_order a.severity ∨
      (AlertEngine.severity_order a.severity = AlertEngine.severity_order b.severity ∧
        AlertEngine.detector_index a.type < AlertEngine.detector_index b.type)) :=
  C7_priority_order genA now0 exForecast 20 90 10 ("GENERAL") none
    ((AlertEngine.check_alerts genA now0 exForecast 20 90 10 ("GENERAL") none).toOption.getD [])
    (by with_unfolding_all rfl)

/-- C10: no detector ever assigns severity LOW: every alert in a successful
`check_alerts` result has severity MODERATE, HIGH or SEVERE — even though
LOW exists in the `Severity` enumeration and carries rank 1 in the
prioritization table. -/
theorem C10_no_low_severity :
    (∀ (gen : ℕ → String) (now : DateTime) (f : List HourlyForecast) (ct ch cw : ℚ)
      (ut : String) (th : Option CustomThresholds) (l : List Alert),
      AlertEngine.check_alerts gen now f ct ch cw ut th = .ok l →
      ∀ a ∈ l, a.severity = Severity.MODERATE ∨ a.severity = Severity.HIGH ∨
        a.severity = Severity.SEVERE) ∧
    AlertEngine.severity_order Severity.LOW = 1 := by
  refine ⟨?_, rfl⟩
  intro gen now f ct ch cw ut th l h a ha
  have hne : a.severity ≠ Severity.LOW := by
    rcases AlertEngine.check_alerts_mem_cases h ha with hf | ⟨u, b, _, hf, hab⟩
    · exact hf.1
    · rw [hab]
      exact hf.1
  cases hs : a.severity
  · exact absurd hs hne
  · exact Or.inl rfl
  · exact Or.inr (Or.inl rfl)
  · exact Or.inr (Or.inr rfl)

/-- Witness for C10 on a run that produces a HIGH_HUMIDITY alert. -/
theorem C10_no_low_witness :
    (((AlertEngine.check_alerts genA now0 [point1] 20 90 10 ("GENERAL") none).toOption.getD
        []).headD dummyAlert).severity = Severity.MODERATE ∨
      (((AlertEngine.check_alerts genA now0 [point1] 20 90 10 ("GENERAL") none).toOption.getD
        []).headD dummyAlert).severity = Severity.HIGH ∨
      (((AlertEngine.check_alerts genA now0 [point1] 20 90 10 ("GENERAL") none).toOption.getD
        []).headD dummyAlert).severity = Severity.SEVERE :=
  C10_no_low_severity.1 genA now0 [point1] 20 90 10 ("GENERAL") none
    ((AlertEngine.check_alerts genA now0 [point1] 20 90 10 ("GENERAL") none).toOption.getD [])
    (by with_unfolding_all rfl)
    (((AlertEngine.check_alerts genA now0 [point1] 20 90 10 ("GENERAL") none).toOption.getD
        []).headD dummyAlert)
    (by with_unfolding_all decide)

/-- C8: an undefined user_type string makes the `UserType` constructor
raise `ValueError`, which `_personalize_alerts` catches: personalization is
skipped silently, the alerts keep exactly their base recommendation lists
and `check_alerts` results carry only base recommendations.  For a defined
user_type every alert's recommendation list becomes its base list with the
(user_type, alert_type) entry appended exactly once when it exists, so the
count is base count plus personalized count. -/
theorem C8_personalization_fallback :
    (∀ (alerts : List Alert) (s : String),
      AlertEngine.userTypeOf s = .error PyError.valueError →
      AlertEngine.personalize_alerts alerts s = alerts) ∧
    (∀ (gen : ℕ → String) (now : DateTime) (f : List HourlyForecast) (ct ch cw : ℚ)
      (s : String) (th : Option CustomThresholds) (l : List Alert),
      AlertEngine.userTypeOf s = .error PyError.valueError →
      AlertEngine.check_alerts gen now f ct ch cw s th = .ok l →
      ∀ a ∈ l, a.recommendations = AlertEngine.baseRecommendations a.type) ∧
    (∀ (alerts : List Alert) (s : String) (u : UserType),
      AlertEngine.userTypeOf s = .ok u →
      (AlertEngine.personalize_alerts alerts s).map (fun a => a.recommendations) =
        alerts.map (fun a =>
          a.recommendations ++ (AlertEngine.user_recommendations u a.type).getD []) ∧
      (AlertEngine.personalize_alerts alerts s).map (fun a => a.recommendations.length) =
        alerts.map (fun a => a.recommendations.length +
          ((AlertEngine.user_recommendations u a.type).getD []).length)) := by
  refine ⟨?_, ?_, ?_⟩
  · intro alerts s hs
    unfold AlertEngine.personalize_alerts
    rw [hs]
  · intro gen now f ct ch cw s th l hs h a ha
    rcases AlertEngine.check_alerts_mem_cases h ha with hf | ⟨u, b, hu, hf, hab⟩
    · exact hf.2
    · rw [hs] at hu
      exact Except.noConfusion hu
  · intro alerts s u hs
    unfold AlertEngine.personalize_alerts
    rw [hs]
    constructor
    · rw [List.map_map]
      rfl
    · rw [List.map_map]
      refine List.map_congr_left ?_
      intro a ha
      simp [List.length_append]

/-- Witness for C8: an unknown user_type string leaves alerts unchanged; a
known one (FARMER) appends the two FARMER×HEATWAVE recommendations. -/
theorem C8_personalization_witness :
    AlertEngine.personalize_alerts [dummyAlert] ("WIZARD") = [dummyAlert] ∧
      (AlertEngine.personalize_alerts [dummyAlert] ("FARMER")).map
        (fun a => a.recommendations.length) = [2] := by
  constructor
  · exact C8_personalization_fallback.1 [dummyAlert] ("WIZARD") (by decide)
  · rw [(C8_personalization_fallback.2.2 [dummyAlert] ("FARMER") UserType.FARMER
      (by decide)).2]
    decide

/-- A normalized USGS earthquake record as produced by
`EarthquakeMonitor.fetch_earthquakes` (the dict the per-event flow reads). -/
structure EqEvent where
  id : String
  magnitude : ℚ
  place : String
  time : ℤ
  updated : ℤ
  longitude : ℚ
  latitude : ℚ
  depth_km : ℚ
  felt_reports : ℤ
  tsunami : ℤ
  url : String
deriving DecidableEq, Repr

/-- The alert dict built in
`EarthquakeMonitor.get_earthquakes_near_location`.  The `event_time` ISO
string (a pure reformatting of `EqEvent.time`) is not modelled. -/
structure EqAlert where
  id : String
  type : String
  severity : String
  title : String
  message : String
  user_message : String
  loc_description : String
  loc_lat : ℚ
  loc_lon : ℚ
  distance_km : ℚ
  magnitude : ℚ
  depth_km : ℚ
  felt_reports : ℤ
  tsunami_potential : Bool
  source : String
  source_url : String
  user_type : String
deriving DecidableEq, Repr

namespace EarthquakeMonitor

/-- `EarthquakeMonitor.get_impact_radius`. -/
def get_impact_radius (magnitude : ℚ) : ℚ :=
  if magnitude ≥ 8 then 1000
  else if magnitude ≥ 7 then 500
  else if magnitude ≥ 6 then 200
  else if magnitude ≥ 5 then 100
  else 50

/-- `EarthquakeMonitor.get_severity`. -/
def get_severity (magnitude distance_km : ℚ) : String :=
  let impact_radius := get_impact_radius magnitude
  if magnitude ≥ 7 ∧ distance_km < 100 then "critical"
  else if magnitude ≥ 6 ∧ distance_km < 50 then "critical"
  else if magnitude ≥ 6.5 ∧ distance_km < 200 then "warning"
  else if magnitude ≥ 5.5 ∧ distance_km < 100 then "warning"
  else if distance_km < impact_radius then "warning"
  else "info"

/-- Modelled from the spec (claim C6 wording): severity as a single
three-way classification, for comparison with the source's `elif` chain. -/
def severitySpec (magnitude distance_km : ℚ) : String :=
  if (magnitude ≥ 7 ∧ distance_km < 100) ∨ (magnitude ≥ 6 ∧ distance_km < 50) then "critical"
  else if (magnitude ≥ 6.5 ∧ distance_km < 200) ∨ (magnitude ≥ 5.5 ∧ distance_km < 100) ∨
      distance_km < get_impact_radius magnitude then "warning"
  else "info"

/-- The per-user, per-severity advice strings of
`EarthquakeMonitor.generate_user_message` (`dict.get(user_type,
GENERAL).get(severity, "")`). -/
def eqAdvice (user_type severity : String) : String :=
  if user_type = "STUDENT" then
    if severity = "critical" then
      " TAKE COVER NOW! Drop, Cover, and Hold On. Stay away from windows. Follow your school\x27s earthquake drill procedures."
    else if severity = "warning" then
      " Stay alert. If you feel shaking, drop under a desk and hold on. Inform teachers and stay calm."
    else if severity = "info" then
      " Be aware of this seismic activity. Review earthquake safety procedures with your school."
    else ""
  else if user_type = "FARMER" then
    if severity = "critical" then
      " Secure livestock immediately. Move away from structures and equipment. Check for gas leaks and structural damage after shaking stops."
    else if severity = "warning" then
      " Monitor your animals for unusual behavior. Secure heavy equipment. Be prepared for aftershocks."
    else if severity = "info" then
      " Check farm structures for any damage. Ensure water sources are not contaminated."
    else ""
  else if user_type = "TRAVELLER" then
    if severity = "critical" then
      " Seek shelter immediately in a sturdy building. Stay away from coastal areas if near the ocean (tsunami risk). Do not use elevators."
    else if severity = "warning" then
      " Avoid traveling to the affected area. Check with local authorities. Have an emergency plan ready."
    else if severity = "info" then
      " Monitor local news for updates. Be aware of potential travel disruptions in the region."
    else ""
  else if user_type = "DELIVERY_WORKER" then
    if severity = "critical" then
      " Stop your vehicle safely away from buildings, bridges, and power lines. Stay inside until shaking stops."
    else if severity = "warning" then
      " Avoid routes near the affected area. Check road conditions before proceeding. Stay in communication with dispatch."
    else if severity = "info" then
      " Be aware of potential road damage or closures in the affected region."
    else ""
  else
    if severity = "critical" then
      " DROP, COVER, and HOLD ON! Get under sturdy furniture. Stay away from windows and outside walls. Do not run outside."
    else if severity = "warning" then
      " Be prepared for aftershocks. Have emergency supplies ready. Check on neighbors."
    else if severity = "info" then
      " Stay informed through official channels. Review your emergency preparedness plan."
    else ""

/-- `EarthquakeMonitor.generate_user_message`. -/
def generate_user_message (magnitude distance_km : ℚ)
    (place user_type severity : String) : String :=
  let base_msg := "Magnitude " ++ pyStr magnitude ++ " earthquake occurred " ++
    fmt0 distance_km ++ "km away near " ++ place ++ "."
  base_msg ++ eqAdvice user_type severity

/-- The alert built for one earthquake event inside
`get_earthquakes_near_location`, given the computed haversine distance. -/
def eqAlertOfEvent (eq : EqEvent) (distance : ℚ) (user_type : String) : EqAlert :=
  let severity := get_severity eq.magnitude distance
  let user_message := generate_user_message eq.magnitude distance eq.place user_type severity
  { id := "eq_" ++ eq.id
    type := "earthquake"
    severity := severity
    title := "Magnitude " ++ pyStr eq.magnitude ++ " Earthquake"
    message := "Earthquake detected " ++ fmt0 distance ++ "km from your location"
    user_message := user_message
    loc_description := eq.place
    loc_lat := eq.latitude
    loc_lon := eq.longitude
    distance_km := pyRound1 distance
    magnitude := eq.magnitude
    depth_km := eq.depth_km
    felt_reports := eq.felt_reports
    tsunami_potential := decide (eq.tsunami ≠ 0)
    source := "USGS"
    source_url := eq.url
    user_type := user_type }

/-- `EarthquakeMonitor.get_earthquakes_near_location`, parameterised by the
distance function (`calculate_distance` with the user location fixed). -/
def get_earthquakes_near_location (dist : EqEvent → ℚ) (earthquakes : List EqEvent)
    (user_type : String) (max_distance_km : ℚ) : List EqAlert :=
  let relevant_alerts := earthquakes.filterMap fun eq =>
    if dist eq ≤ max (get_impact_radius eq.magnitude) max_distance_km then
      some (eqAlertOfEvent eq (dist eq) user_type)
    else none
  stableSortBy (fun b a => decide (b.distance_km ≤ a.distance_km)) relevant_alerts

end EarthquakeMonitor

/-- A tsunami candidate event as built by
`TsunamiMonitor.fetch_tsunami_warnings` from the earthquake feed. -/
structure TsunamiEvent where
  id : String
  trigger_earthquake_id : String
  magnitude : ℚ
  location : String
  latitude : ℚ
  longitude : ℚ
  depth_km : ℚ
  event_time : ℤ
  source : String
  source_url : String
deriving DecidableEq, Repr

/-- The alert dict built in
`TsunamiMonitor.get_tsunami_alerts_near_location`.  The `event_time` ISO
string (a pure reformatting of `TsunamiEvent.event_time`) is not
modelled. -/
structure TsunamiAlert where
  id : String
  type : String
  severity : String
  title : String
  message : String
  user_message : String
  loc_description : String
  loc_lat : ℚ
  loc_lon : ℚ
  distance_km : ℚ
  trigger_magnitude : ℚ
  depth_km : ℚ
  estimated_arrival_minutes : Option ℤ
  tsunami_speed_kmh : ℚ
  is_coastal_area : Bool
  source : String
  source_url : String
  user_type : String
deriving DecidableEq, Repr

namespace TsunamiMonitor

/-- `TsunamiMonitor.is_coastal_location`: the source is a stub that treats
every location as coastal. -/
def is_coastal_location (lat lon : ℚ) : Bool := true

/-- `TsunamiMonitor.calculate_tsunami_severity`. -/
def calculate_tsunami_severity (magnitude distance_km : ℚ) (is_coastal : Bool) : String :=
  if ¬ is_coastal then "info"
  else if magnitude ≥ 8 ∧ distance_km < 500 then "critical"
  else if magnitude ≥ 7.5 ∧ distance_km < 300 then "critical"
  else if magnitude ≥ 7 ∧ distance_km < 800 then "warning"
  else if magnitude ≥ 6.5 ∧ distance_km < 500 then "warning"
  else "info"

/-- The per-user advice strings of `generate_tsunami_message`
(`dict.get(user_type, GENERAL)`). -/
def tsunamiAdvice (user_type : String) : String :=
  if user_type = "STUDENT" then
    " If at school, follow evacuation procedures. Move to upper floors or inland immediately."
  else if user_type = "FARMER" then
    " Secure livestock and move to higher ground. Do not attempt to save equipment - prioritize safety."
  else if user_type = "TRAVELLER" then
    " Leave coastal hotels immediately. Head inland or to high ground. Do not use elevators."
  else if user_type = "DELIVERY_WORKER" then
    " Abandon deliveries. Drive inland immediately. Alert dispatch of your location."
  else
    " Take tsunami warnings seriously. Move quickly but calmly to safety."

/-- `TsunamiMonitor.generate_tsunami_message`.  Python's
`if estimated_arrival_minutes:` is falsy both for `None` and for a zero
estimate, so those two cases produce the distance-based message. -/
def generate_tsunami_message (magnitude distance_km : ℚ)
    (location user_type severity : String)
    (estimated_arrival_minutes : Option ℤ) : String :=
  let base_msg :=
    match estimated_arrival_minutes with
    | some m =>
      if m = 0 then
        "TSUNAMI WARNING: Magnitude " ++ pyStr magnitude ++ " earthquake near " ++ location ++
          " (" ++ fmt0 distance_km ++ "km away). Tsunami waves possible."
      else
        "TSUNAMI WARNING: Magnitude " ++ pyStr magnitude ++ " earthquake near " ++ location ++
          ". Tsunami waves may arrive in approximately " ++ toString m ++ " minutes."
    | none =>
      "TSUNAMI WARNING: Magnitude " ++ pyStr magnitude ++ " earthquake near " ++ location ++
        " (" ++ fmt0 distance_km ++ "km away). Tsunami waves possible."
  let action :=
    if severity = "critical" then
      " EVACUATE IMMEDIATELY to higher ground (at least 30m above sea level or 3km inland). Do not wait for official evacuation orders."
    else if severity = "warning" then
      " Move to higher ground as a precaution. Stay away from beaches and coastal areas. Monitor official channels."
    else
      " Stay informed through official channels. Be prepared to evacuate if warning is upgraded."
  base_msg ++ action ++ tsunamiAdvice user_type

/-- The alert built for one tsunami event inside
`get_tsunami_alerts_near_location`, given the computed haversine
distance. -/
def tsunamiAlertOfEvent (event : TsunamiEvent) (distance : ℚ)
    (user_lat user_lon : ℚ) (user_type : String) : TsunamiAlert :=
  let is_coastal := is_coastal_location user_lat user_lon
  let severity := calculate_tsunami_severity event.magnitude distance is_coastal
  let tsunami_speed_kmh : ℚ := 800
  let estimated_arrival_minutes : ℤ := pyInt (distance / tsunami_speed_kmh * 60)
  let user_message := generate_tsunami_message event.magnitude distance event.location
    user_type severity
    (if distance < 500 then some estimated_arrival_minutes else none)
  { id := event.id
    type := "tsunami"
    severity := severity
    title := "Tsunami Warning - Magnitude " ++ pyStr event.magnitude ++ " Earthquake"
    message := "Tsunami possible from earthquake " ++ fmt0 distance ++ "km away"
    user_message := user_message
    loc_description := event.location
    loc_lat := event.latitude
    loc_lon := event.longitude
    distance_km := pyRound1 distance
    trigger_magnitude := event.magnitude
    depth_km := event.depth_km
    estimated_arrival_minutes := if distance < 500 then some estimated_arrival_minutes else none
    tsunami_speed_kmh := tsunami_speed_kmh
    is_coastal_area := is_coastal
    source := event.source
    source_url := event.source_url
    user_type := user_type }

/-- The `severity_order` rank table of the tsunami flow's final sort
(`dict.get(…, 0)`). -/
def tsunami_severity_order (s : String) : ℕ :=
  if s = "critical" then 3 else if s = "warning" then 2 else if s = "info" then 1 else 0

/-- `TsunamiMonitor.get_tsunami_alerts_near_location`, parameterised by the
distance function.  The final sort is Python's stable `sort` with
`key=(severity rank, distance)`, `reverse=True` — tuple comparison is
lexicographic. -/
def get_tsunami_alerts_near_location (dist : TsunamiEvent → ℚ)
    (tsunami_events : List TsunamiEvent) (user_lat user_lon : ℚ)
    (user_type : String) (max_distance_km : ℚ) : List TsunamiAlert :=
  let alerts := tsunami_events.filterMap fun event =>
    if dist event ≤ max_distance_km then
      some (tsunamiAlertOfEvent event (dist event) user_lat user_lon user_type)
    else none
  stableSortBy (fun b a => decide
    (tsunami_severity_order a.severity < tsunami_severity_order b.severity ∨
      (tsunami_severity_order a.severity = tsunami_severity_order b.severity ∧
        a.distance_km ≤ b.distance_km))) alerts

end TsunamiMonitor

/-- C6: the earthquake severity classification agrees pointwise with the
claim's single three-way rule, and a magnitude 7.2 event is "critical" at
80 km and "warning" at 150 km. -/
theorem C6_earthquake_severity :
    (∀ m d : ℚ, EarthquakeMonitor.get_severity m d = EarthquakeMonitor.severitySpec m d) ∧
      EarthquakeMonitor.get_severity 7.2 80 = "critical" ∧
      EarthquakeMonitor.get_severity 7.2 150 = "warning" := by
  refine ⟨?_, ?_, ?_⟩
  case refine_2 =>
    have h1 : ((7.2:ℚ) ≥ 7 ∧ (80:ℚ) < 100) := by norm_num
    simp only [EarthquakeMonitor.get_severity]
    rw [if_pos h1]
  case refine_3 =>
    have h2 : ¬((7.2:ℚ) ≥ 7 ∧ (150:ℚ) < 100) := by norm_num
    have h3 : ¬((7.2:ℚ) ≥ 6 ∧ (150:ℚ) < 50) := by norm_num
    have h4 : ((7.2:ℚ) ≥ 6.5 ∧ (150:ℚ) < 200) := by norm_num
    simp only [EarthquakeMonitor.get_severity]
    rw [if_neg h2, if_neg h3, if_pos h4]
  intro m d
  by_cases h1 : m ≥ 7 ∧ d < 100 <;> by_cases h2 : m ≥ 6 ∧ d < 50 <;>
    by_cases h3 : m ≥ 6.5 ∧ d < 200 <;> by_cases h4 : m ≥ 5.5 ∧ d < 100 <;>
    by_cases h5 : d < EarthquakeMonitor.get_impact_radius m <;>
    simp [EarthquakeMonitor.get_severity, EarthquakeMonitor.severitySpec, h1, h2, h3, h4, h5]

theorem isPrefixOf_append_self {α : Type _} [DecidableEq α] (n s : List α) :
    n.isPrefixOf (n ++ s) = true := by
  induction n with
  | nil => simp [List.isPrefixOf]
  | cons c t ih => simp [List.isPrefixOf, ih]

theorem hasSub_here {α : Type _} [DecidableEq α] (n s : List α) :
    hasSub n (n ++ s) = true := by
  cases n with
  | nil => cases s <;> simp [hasSub, List.isPrefixOf]
  | cons c t =>
    have h := isPrefixOf_append_self (c :: t) s
    simp only [List.cons_append] at h ⊢
    simp [hasSub, h]

theorem hasSub_here2 {α : Type _} [DecidableEq α] (n1 n2 s : List α) :
    hasSub (n1 ++ n2) (n1 ++ (n2 ++ s)) = true := by
  have h := hasSub_here (n1 ++ n2) s
  rwa [List.append_assoc] at h

theorem hasSub_append_right {α : Type _} [DecidableEq α] (p t n : List α)
    (h : hasSub n t = true) : hasSub n (p ++ t) = true := by
  induction p with
  | nil => simpa using h
  | cons x xs ih => simp [hasSub, ih]

/-- A fixed tsunami candidate event of the given magnitude. -/
def evTsunami (m : ℚ) : TsunamiEvent :=
  { id := "tsunami_q1"
    trigger_earthquake_id := "q1"
    magnitude := m
    location := "Testville"
    latitude := 0
    longitude := 0
    depth_km := 10
    event_time := 0
    source := "USGS"
    source_url := "" }

/-- C3 (amended): for every tsunami alert built for an event at computed
distance d, the stored arrival estimate is `int(d / 800 * 60)` —
truncation, not rounding — and it is present exactly when d < 500 km; the
user message quotes the estimate only when additionally the truncated
estimate is nonzero (Python's truthiness makes a zero estimate fall back
to the no-estimate message); otherwise the message is exactly the
no-estimate form.  For magnitude 8.0 at 400 km the estimate is 30. -/
theorem C3_arrival_estimate :
    (∀ (ev : TsunamiEvent) (d la lo : ℚ) (ut : String),
      (TsunamiMonitor.tsunamiAlertOfEvent ev d la lo ut).estimated_arrival_minutes =
        (if d < 500 then some (pyInt (d / 800 * 60)) else none) ∧
      (d < 500 → pyInt (d / 800 * 60) ≠ 0 →
        hasSub (toString (pyInt (d / 800 * 60)) ++ " minutes.").data
          (TsunamiMonitor.tsunamiAlertOfEvent ev d la lo ut).user_message.data = true) ∧
      (¬(d < 500 ∧ pyInt (d / 800 * 60) ≠ 0) →
        (TsunamiMonitor.tsunamiAlertOfEvent ev d la lo ut).user_message =
          TsunamiMonitor.generate_tsunami_message ev.magnitude d ev.location ut
            (TsunamiMonitor.calculate_tsunami_severity ev.magnitude d
              (TsunamiMonitor.is_coastal_location la lo)) none)) ∧
    (TsunamiMonitor.tsunamiAlertOfEvent (evTsunami 8) 400 0 0
      ("GENERAL")).estimated_arrival_minutes = some 30 := by
  constructor
  · intro ev d la lo ut
    refine ⟨rfl, ?_, ?_⟩
    · intro hd hne
      simp only [TsunamiMonitor.tsunamiAlertOfEvent, TsunamiMonitor.generate_tsunami_message]
      rw [if_pos hd]
      dsimp only
      rw [if_neg hne]
      simp only [String.data_append, List.append_assoc]
      apply hasSub_append_right
      apply hasSub_append_right
      apply hasSub_append_right
      apply hasSub_append_right
      apply hasSub_append_right
      exact hasSub_here2 _ _ _
    · intro h
      simp only [TsunamiMonitor.tsunamiAlertOfEvent]
      by_cases hd : d < 500
      · have hz : pyInt (d / 800 * 60) = 0 := by
          by_contra hne
          exact h ⟨hd, hne⟩
        rw [if_pos hd, hz]
        rfl
      · rw [if_neg hd]
  · simp only [TsunamiMonitor.tsunamiAlertOfEvent]
    rw [if_pos (by norm_num : (400:ℚ) < 500)]
    have h : (400:ℚ) / 800 * 60 = 30 := by norm_num
    rw [h]
    norm_num [pyInt]

/-- Witness for C3: at magnitude 8.0, distance 400 km, the estimate is 30
and "30 minutes." appears in the user message. -/
theorem C3_arrival_witness :
    hasSub (toString (pyInt ((400:ℚ) / 800 * 60)) ++ " minutes.").data
      (TsunamiMonitor.tsunamiAlertOfEvent (evTsunami 8) 400 0 0
        ("GENERAL")).user_message.data = true :=
  (C3_arrival_estimate.1 (evTsunami 8) 400 0 0 ("GENERAL")).2.1
    (by norm_num)
    (by
      have h : (400:ℚ) / 800 * 60 = 30 := by norm_num
      rw [h]
      norm_num [pyInt])

/-- C3 (counterexample): at distance 10 km the stored arrival estimate is
`int(0.75) = 0`, not `round(0.75) = 1`, so the claim's "equals
round(d / 800 × 60)" fails (and, the estimate being zero, it is not quoted
in the message either although d < 500). -/
theorem C3_counterexample_truncation :
    (TsunamiMonitor.tsunamiAlertOfEvent (evTsunami 8) 10 0 0
        ("GENERAL")).estimated_arrival_minutes = some 0 ∧
      round ((10:ℚ) / 800 * 60) = 1 ∧
      (TsunamiMonitor.tsunamiAlertOfEvent (evTsunami 8) 10 0 0
        ("GENERAL")).estimated_arrival_minutes ≠ some (round ((10:ℚ) / 800 * 60)) ∧
      (TsunamiMonitor.tsunamiAlertOfEvent (evTsunami 8) 10 0 0 ("GENERAL")).user_message =
        TsunamiMonitor.generate_tsunami_message 8 10 ("Testville") ("GENERAL")
          ("critical") none := by
  have hv : (10:ℚ) / 800 * 60 = 3/4 := by norm_num
  have hz : pyInt ((10:ℚ) / 800 * 60) = 0 := by
    rw [hv]
    norm_num [pyInt]
  have hr : round ((10:ℚ) / 800 * 60) = 1 := by
    rw [hv]
    norm_num [round_eq]
  refine ⟨?_, hr, ?_, ?_⟩
  · simp only [TsunamiMonitor.tsunamiAlertOfEvent]
    rw [if_pos (by norm_num : (10:ℚ) < 500), hz]
  · simp only [TsunamiMonitor.tsunamiAlertOfEvent]
    rw [if_pos (by norm_num : (10:ℚ) < 500), hz, hr]
    decide
  · have h := (C3_arrival_estimate.1 (evTsunami 8) 10 0 0 ("GENERAL")).2.2
      (by
        intro hc
        exact hc.2 hz)
    exact h

/-- A fixed earthquake event used for concrete evaluations. -/
def evQuake : EqEvent :=
  { id := "q1"
    magnitude := 7.2
    place := "Testville"
    time := 0
    updated := 0
    longitude := 0
    latitude := 0
    depth_km := 10
    felt_reports := 0
    tsunami := 0
    url := "" }

/-- A placeholder earthquake alert used only to totalise `List.headD` in
witness statements. -/
def eqDummy : EqAlert :=
  { id := ""
    type := ""
    severity := ""
    title := ""
    message := ""
    user_message := ""
    loc_description := ""
    loc_lat := 0
    loc_lon := 0
    distance_km := 0
    magnitude := 0
    depth_km := 0
    felt_reports := 0
    tsunami_potential := false
    source := ""
    source_url := ""
    user_type := "" }

/-- C9 (amended): every alert either flow produces is the alert built for
one of the input events, and its `distance_km` field stores that same
event's haversine distance rounded to one decimal place (Python
`round(distance, 1)`), not the raw distance. -/
theorem C9_distance_rounded :
    (∀ (dist : EqEvent → ℚ) (events : List EqEvent) (ut : String) (maxd : ℚ),
      ∀ a ∈ EarthquakeMonitor.get_earthquakes_near_location dist events ut maxd,
        ∃ ev ∈ events, a = EarthquakeMonitor.eqAlertOfEvent ev (dist ev) ut ∧
          a.distance_km = pyRound1 (dist ev)) ∧
    (∀ (dist : TsunamiEvent → ℚ) (events : List TsunamiEvent) (la lo : ℚ)
      (ut : String) (maxd : ℚ),
      ∀ a ∈ TsunamiMonitor.get_tsunami_alerts_near_location dist events la lo ut maxd,
        ∃ ev ∈ events, a = TsunamiMonitor.tsunamiAlertOfEvent ev (dist ev) la lo ut ∧
          a.distance_km = pyRound1 (dist ev)) := by
  constructor
  · intro dist events ut maxd a ha
    unfold EarthquakeMonitor.get_earthquakes_near_location at ha
    rw [mem_stableSortBy, List.mem_filterMap] at ha
    obtain ⟨ev, hev, hsome⟩ := ha
    split at hsome
    · injection hsome with hsome
      refine ⟨ev, hev, hsome.symm, ?_⟩
      rw [← hsome]
      rfl
    · exact Option.noConfusion hsome
  · intro dist events la lo ut maxd a ha
    unfold TsunamiMonitor.get_tsunami_alerts_near_location at ha
    rw [mem_stableSortBy, List.mem_filterMap] at ha
    obtain ⟨ev, hev, hsome⟩ := ha
    split at hsome
    · injection hsome with hsome
      refine ⟨ev, hev, hsome.symm, ?_⟩
      rw [← hsome]
      rfl
    · exact Option.noConfusion hsome

/-- C9 (counterexample): with the haversine distance evaluating to
123.46 km, the produced alert's `distance_km` field is 123.5 — the rounded
value, not the true distance. -/
theorem C9_counterexample_rounding :
    (EarthquakeMonitor.get_earthquakes_near_location (fun _ => 123.46) [evQuake]
        ("GENERAL") 1000).map (fun a => a.distance_km) = [123.5] ∧
      (123.5 : ℚ) ≠ 123.46 := by
  constructor
  · with_unfolding_all decide
  · norm_num

/-- Witness for C9 at a concrete event and distance. -/
theorem C9_distance_witness :
    ((EarthquakeMonitor.get_earthquakes_near_location (fun _ => 123.46) [evQuake]
        ("GENERAL") 1000).headD eqDummy).distance_km = pyRound1 123.46 := by
  obtain ⟨ev, hev, hae, hd⟩ :=
    C9_distance_rounded.1 (fun _ => 123.46) [evQuake] ("GENERAL") 1000
      ((EarthquakeMonitor.get_earthquakes_near_location (fun _ => 123.46) [evQuake]
          ("GENERAL") 1000).headD eqDummy)
      (by with_unfolding_all decide)
  exact hd
